import Mathlib

/-!
# The Beike: Windows runner bootstrap (`windows/runner/main.cpp`)

A shallow embedding of the two functions of `main.cpp`:

* `GetLocalizedAppTitle`, the locale-aware title resolver, as a function of the
  language identifier that `GetUserDefaultUILanguage()` reports;
* `wWinMain`, the process entry point, as a function from the results the
  operating system and the window hand back (`Env`) to the sequence of calls the
  body makes, in program order, together with the value it returns (`Run`).

Everything the body of `wWinMain` does is a call into the platform or into the
window/runtime classes, so the observable behaviour of a run is exactly its call
sequence and its return value. The sequence holds the calls written in the body,
constructors included; the destructors that run for the locals when the function
returns are not written there and are not recorded.
-/

namespace Beike

/-! ## Platform values used by `main.cpp` -/

/-- The part of `<windows.h>` that `GetLocalizedAppTitle` uses. The header is not
among the sources, so it is a parameter of the model: the two macros that split
a language identifier into its primary language and its sub-language, the
Chinese primary language and the three sub-language constants the `switch`
names. -/
structure WinNls where
  PRIMARYLANGID : Nat → Nat
  SUBLANGID : Nat → Nat
  LANG_CHINESE : Nat
  SUBLANG_CHINESE_TRADITIONAL : Nat
  SUBLANG_CHINESE_HONGKONG : Nat
  SUBLANG_CHINESE_MACAU : Nat

/-- The values of the Windows SDK (`winnt.h`): the primary language is the low
ten bits of the 16-bit identifier and the sub-language the six bits above them;
`LANG_CHINESE = 0x04`, `SUBLANG_CHINESE_TRADITIONAL = 0x01`,
`SUBLANG_CHINESE_HONGKONG = 0x03`, `SUBLANG_CHINESE_MACAU = 0x05`. -/
def winnt : WinNls where
  PRIMARYLANGID := fun lgid => (lgid % 65536) % 1024
  SUBLANGID := fun lgid => (lgid % 65536) / 1024
  LANG_CHINESE := 0x04
  SUBLANG_CHINESE_TRADITIONAL := 0x01
  SUBLANG_CHINESE_HONGKONG := 0x03
  SUBLANG_CHINESE_MACAU := 0x05

/-- Modelled from the spec: `<stdlib.h>` is not among the sources; the spec calls
this the "success code on normal loop termination". The value is the one of the
platform C library. -/
def EXIT_SUCCESS : Int := 0

/-- Modelled from the spec: `<stdlib.h>` is not among the sources; the spec calls
this "a distinct failure code if window creation fails". The value is the one of
the platform C library. -/
def EXIT_FAILURE : Int := 1

/-! ## `GetLocalizedAppTitle` -/

/-- A `std::wstring`: the sequence of its `wchar_t` code units. -/
abbrev wstring := List Nat

/-- A wide string literal `L"..."`: one code unit per character (all characters
of the literals in `main.cpp` are in the basic multilingual plane). -/
def L (s : String) : wstring := s.toList.map Char.toNat

/-- The value a `WORD` variable holds after being initialised with `v`. -/
def WORD (v : Nat) : Nat := v % 65536

/-- `GetLocalizedAppTitle` (main.cpp lines 8-25), as a function of the value
`lang_id` returned by `GetUserDefaultUILanguage()`. -/
def GetLocalizedAppTitle (w : WinNls) (lang_id : Nat) : wstring :=
  let primary_lang := WORD (w.PRIMARYLANGID lang_id)
  let sub_lang := WORD (w.SUBLANGID lang_id)
  if primary_lang = w.LANG_CHINESE then
    if sub_lang = w.SUBLANG_CHINESE_TRADITIONAL
        ∨ sub_lang = w.SUBLANG_CHINESE_HONGKONG
        ∨ sub_lang = w.SUBLANG_CHINESE_MACAU then
      L "\u5927\u8c9d\u6bbc"
    else
      L "\u5927\u8d1d\u58f3"
  else
    L "The Beike"

/-! ## `wWinMain` -/

/-- The contents of a `::MSG` buffer, kept abstract. -/
abbrev MSG := Nat

/-- `Win32Window::Point`, built from the two integer literals of the source. -/
structure Point where
  x : Int
  y : Int
deriving DecidableEq, Repr

/-- `Win32Window::Size`, built from the two integer literals of the source. -/
structure Size where
  width : Int
  height : Int
deriving DecidableEq, Repr

/-- What the platform and the window answer during one run of `wWinMain`.
`BOOL` results are integers (zero is false). `GetMessage` lists the results of
the successive `::GetMessage` calls, each with the contents of `msg` after the
call; `::GetMessage` blocks, so once the list is used up without a zero result
the run is waiting inside `::GetMessage` and has not returned. -/
structure Env where
  AttachConsole : Int
  IsDebuggerPresent : Int
  GetCommandLineArguments : List String
  GetUserDefaultUILanguage : Nat
  Create : Bool
  GetMessage : List (Int × MSG)

/-- The calls the body of `wWinMain` makes, with their arguments and, where the
body uses it, their result. -/
inductive Call where
  | AttachConsole (result : Int)
  | IsDebuggerPresent (result : Int)
  | CreateAndAttachConsole
  | CoInitializeEx
  | DartProject (assets : wstring)
  | GetCommandLineArguments (result : List String)
  | set_dart_entrypoint_arguments (arguments : List String)
  | FlutterWindow
  | GetUserDefaultUILanguage (result : Nat)
  | Create (title : wstring) (origin : Point) (size : Size) (result : Bool)
  | SetQuitOnClose (quit_on_close : Bool)
  | GetMessage (result : Int) (msg : MSG)
  | TranslateMessage (msg : MSG)
  | DispatchMessage (msg : MSG)
  | CoUninitialize
deriving DecidableEq, Repr

/-- One run: the calls made, in order, and the value returned (`none` while the
run is still waiting inside `::GetMessage`). -/
structure Run where
  calls : List Call
  ret : Option Int
deriving DecidableEq, Repr

/-- Lines 31-33: `if (!::AttachConsole(ATTACH_PARENT_PROCESS) &&
::IsDebuggerPresent()) { CreateAndAttachConsole(); }`, with the short-circuit
evaluation of `&&`. -/
def attachConsole (env : Env) : List Call :=
  Call.AttachConsole env.AttachConsole ::
    (if env.AttachConsole = 0 then
      Call.IsDebuggerPresent env.IsDebuggerPresent ::
        (if env.IsDebuggerPresent ≠ 0 then [Call.CreateAndAttachConsole] else [])
    else [])

/-- Lines 54-58: `while (::GetMessage(&msg, nullptr, 0, 0)) { ::TranslateMessage(&msg);
::DispatchMessage(&msg); }`. The result is the calls made and whether the loop
was left (`false`: the results are used up and the loop is waiting). -/
def messageLoop : List (Int × MSG) → List Call × Bool
  | [] => ([], false)
  | (result, msg) :: rest =>
    if result ≠ 0 then
      let r := messageLoop rest
      (Call.GetMessage result msg :: Call.TranslateMessage msg ::
        Call.DispatchMessage msg :: r.1, r.2)
    else
      ([Call.GetMessage result msg], true)

/-- `wWinMain` (main.cpp lines 27-62). -/
def wWinMain (w : WinNls) (env : Env) : Run :=
  let t := attachConsole env
  let t := t ++ [Call.CoInitializeEx]
  let t := t ++ [Call.DartProject (L "data")]
  let command_line_arguments := env.GetCommandLineArguments
  let t := t ++ [Call.GetCommandLineArguments command_line_arguments]
  let t := t ++ [Call.set_dart_entrypoint_arguments command_line_arguments]
  let t := t ++ [Call.FlutterWindow]
  let origin : Point := ⟨10, 10⟩
  let size : Size := ⟨1280, 720⟩
  let lang_id := env.GetUserDefaultUILanguage
  let t := t ++ [Call.GetUserDefaultUILanguage lang_id]
  let title := GetLocalizedAppTitle w lang_id
  let t := t ++ [Call.Create title origin size env.Create]
  if !env.Create then
    ⟨t, some EXIT_FAILURE⟩
  else
    let t := t ++ [Call.SetQuitOnClose true]
    let loop := messageLoop env.GetMessage
    let t := t ++ loop.1
    if loop.2 then
      ⟨t ++ [Call.CoUninitialize], some EXIT_SUCCESS⟩
    else
      ⟨t, none⟩

/-! ## Observations on a call sequence -/

/-- The calls of the message loop. -/
def isLoopCall : Call → Bool
  | .GetMessage _ _ => true
  | .TranslateMessage _ => true
  | .DispatchMessage _ => true
  | _ => false

/-- The `window.Create` calls. -/
def isCreate : Call → Bool
  | .Create _ _ _ _ => true
  | _ => false

/-- The `window.SetQuitOnClose` calls. -/
def isSetQuitOnClose : Call → Bool
  | .SetQuitOnClose _ => true
  | _ => false

/-- The `::AttachConsole` calls. -/
def isAttachConsole : Call → Bool
  | .AttachConsole _ => true
  | _ => false

/-- The `project.set_dart_entrypoint_arguments` calls. -/
def isSetArguments : Call → Bool
  | .set_dart_entrypoint_arguments _ => true
  | _ => false

/-- The calls one retrieved message goes through in the loop body: the retrieval,
then `::TranslateMessage`, then `::DispatchMessage`. -/
def pump (m : Int × MSG) : List Call :=
  [Call.GetMessage m.1 m.2, Call.TranslateMessage m.2, Call.DispatchMessage m.2]

/-- The calls of a run up to, but not including, `window.Create`. -/
def beforeCreate (env : Env) : List Call :=
  attachConsole env ++
    [Call.CoInitializeEx, Call.DartProject (L "data"),
     Call.GetCommandLineArguments env.GetCommandLineArguments,
     Call.set_dart_entrypoint_arguments env.GetCommandLineArguments,
     Call.FlutterWindow,
     Call.GetUserDefaultUILanguage env.GetUserDefaultUILanguage]

/-- The `window.Create` call of a run. -/
def createCall (w : WinNls) (env : Env) : Call :=
  Call.Create (GetLocalizedAppTitle w env.GetUserDefaultUILanguage)
    ⟨10, 10⟩ ⟨1280, 720⟩ env.Create

/-- The calls of a run after `window.Create`: none when the window was not
created; otherwise `SetQuitOnClose(true)`, the message loop and, once the loop is
left, `::CoUninitialize`. -/
def afterCreate (created : Bool) (ms : List (Int × MSG)) : List Call :=
  if created then
    Call.SetQuitOnClose true ::
      ((messageLoop ms).1 ++ (if (messageLoop ms).2 then [Call.CoUninitialize] else []))
  else []

/-! ## Concrete inputs -/

/-- A run started without a parent console and under a debugger, user interface
language zh-TW, two command-line arguments, a window that is created, and two
messages followed by the quit result. -/
def envClose : Env where
  AttachConsole := 0
  IsDebuggerPresent := 1
  GetCommandLineArguments := ["--verbose", "a b"]
  GetUserDefaultUILanguage := 0x0404
  Create := true
  GetMessage := [(1, 15), (-1, 15), (0, 18)]

/-- The same run with window creation failing. -/
def envFail : Env := { envClose with Create := false }

/-! ## The title resolver -/

theorem L_traditional : L "\u5927\u8c9d\u6bbc" = [0x5927, 0x8C9D, 0x6BBC] := by decide

theorem L_simplified : L "\u5927\u8d1d\u58f3" = [0x5927, 0x8D1D, 0x58F3] := by decide

/-- C1: the title is the Traditional-script one (U+5927 U+8C9D U+6BBC) when the
primary language is Chinese and the sub-language is Traditional, Hong Kong or
Macau, the Simplified-script one (U+5927 U+8D1D U+58F3) when the primary language
is Chinese with any other sub-language, and `The Beike` when the primary language
is not Chinese, whatever the sub-language. -/
theorem GetLocalizedAppTitle_policy (w : WinNls) (lang_id : Nat) :
    (WORD (w.PRIMARYLANGID lang_id) = w.LANG_CHINESE →
      (WORD (w.SUBLANGID lang_id) = w.SUBLANG_CHINESE_TRADITIONAL
        ∨ WORD (w.SUBLANGID lang_id) = w.SUBLANG_CHINESE_HONGKONG
        ∨ WORD (w.SUBLANGID lang_id) = w.SUBLANG_CHINESE_MACAU) →
      GetLocalizedAppTitle w lang_id = [0x5927, 0x8C9D, 0x6BBC]) ∧
    (WORD (w.PRIMARYLANGID lang_id) = w.LANG_CHINESE →
      WORD (w.SUBLANGID lang_id) ≠ w.SUBLANG_CHINESE_TRADITIONAL →
      WORD (w.SUBLANGID lang_id) ≠ w.SUBLANG_CHINESE_HONGKONG →
      WORD (w.SUBLANGID lang_id) ≠ w.SUBLANG_CHINESE_MACAU →
      GetLocalizedAppTitle w lang_id = [0x5927, 0x8D1D, 0x58F3]) ∧
    (WORD (w.PRIMARYLANGID lang_id) ≠ w.LANG_CHINESE →
      GetLocalizedAppTitle w lang_id = "The Beike".toList.map Char.toNat) := by
  refine ⟨fun hp hs => ?_, fun hp h1 h2 h3 => ?_, fun hp => ?_⟩
  · simp only [GetLocalizedAppTitle, if_pos hp, if_pos hs]
    exact L_traditional
  · have hs : ¬ (WORD (w.SUBLANGID lang_id) = w.SUBLANG_CHINESE_TRADITIONAL
        ∨ WORD (w.SUBLANGID lang_id) = w.SUBLANG_CHINESE_HONGKONG
        ∨ WORD (w.SUBLANGID lang_id) = w.SUBLANG_CHINESE_MACAU) := by
      rintro (h | h | h)
      · exact h1 h
      · exact h2 h
      · exact h3 h
    simp only [GetLocalizedAppTitle, if_pos hp, if_neg hs]
    exact L_simplified
  · simp only [GetLocalizedAppTitle, if_neg hp]
    rfl

/-- With the Windows SDK values: zh-TW (0x0404), zh-HK (0x0C04) and zh-MO (0x1404)
give the Traditional title, zh-CN (0x0804) and zh-SG (0x1004) the Simplified one,
en-US (0x0409) and ja-JP (0x0411) the English one. -/
theorem GetLocalizedAppTitle_policy_witness :
    GetLocalizedAppTitle winnt 0x0404 = [0x5927, 0x8C9D, 0x6BBC] ∧
    GetLocalizedAppTitle winnt 0x0C04 = [0x5927, 0x8C9D, 0x6BBC] ∧
    GetLocalizedAppTitle winnt 0x1404 = [0x5927, 0x8C9D, 0x6BBC] ∧
    GetLocalizedAppTitle winnt 0x0804 = [0x5927, 0x8D1D, 0x58F3] ∧
    GetLocalizedAppTitle winnt 0x1004 = [0x5927, 0x8D1D, 0x58F3] ∧
    GetLocalizedAppTitle winnt 0x0409 = "The Beike".toList.map Char.toNat ∧
    GetLocalizedAppTitle winnt 0x0411 = "The Beike".toList.map Char.toNat :=
  ⟨(GetLocalizedAppTitle_policy winnt 0x0404).1 (by decide) (by decide),
   (GetLocalizedAppTitle_policy winnt 0x0C04).1 (by decide) (by decide),
   (GetLocalizedAppTitle_policy winnt 0x1404).1 (by decide) (by decide),
   (GetLocalizedAppTitle_policy winnt 0x0804).2.1 (by decide) (by decide) (by decide)
     (by decide),
   (GetLocalizedAppTitle_policy winnt 0x1004).2.1 (by decide) (by decide) (by decide)
     (by decide),
   (GetLocalizedAppTitle_policy winnt 0x0409).2.2 (by decide),
   (GetLocalizedAppTitle_policy winnt 0x0411).2.2 (by decide)⟩

/-- C2: the resolver is total: for every language identifier, whatever primary
language and sub-language it splits into, the result is one of the three fixed
titles; the three titles are pairwise distinct; and the result is never the empty
string. -/
theorem GetLocalizedAppTitle_total (w : WinNls) (lang_id : Nat) :
    (GetLocalizedAppTitle w lang_id = L "\u5927\u8c9d\u6bbc"
      ∨ GetLocalizedAppTitle w lang_id = L "\u5927\u8d1d\u58f3"
      ∨ GetLocalizedAppTitle w lang_id = L "The Beike") ∧
    (L "\u5927\u8c9d\u6bbc" ≠ L "\u5927\u8d1d\u58f3"
      ∧ L "\u5927\u8c9d\u6bbc" ≠ L "The Beike"
      ∧ L "\u5927\u8d1d\u58f3" ≠ L "The Beike") ∧
    GetLocalizedAppTitle w lang_id ≠ [] := by
  refine ⟨?_, ⟨by decide, by decide, by decide⟩, ?_⟩
  · simp only [GetLocalizedAppTitle]
    split_ifs
    · exact Or.inl rfl
    · exact Or.inr (Or.inl rfl)
    · exact Or.inr (Or.inr rfl)
  · simp only [GetLocalizedAppTitle]
    split_ifs
    · decide
    · decide
    · decide

/-! ## The shape of a run -/

theorem wWinMain_create_failed (w : WinNls) (env : Env) (h : env.Create = false) :
    wWinMain w env = ⟨beforeCreate env ++ [createCall w env], some EXIT_FAILURE⟩ := by
  simp [wWinMain, beforeCreate, createCall, h]

theorem wWinMain_loop_left (w : WinNls) (env : Env) (h : env.Create = true)
    (hq : (messageLoop env.GetMessage).2 = true) :
    wWinMain w env =
      ⟨beforeCreate env ++ createCall w env :: Call.SetQuitOnClose true ::
          ((messageLoop env.GetMessage).1 ++ [Call.CoUninitialize]),
        some EXIT_SUCCESS⟩ := by
  simp [wWinMain, beforeCreate, createCall, h, hq]

theorem wWinMain_loop_waiting (w : WinNls) (env : Env) (h : env.Create = true)
    (hq : (messageLoop env.GetMessage).2 = false) :
    wWinMain w env =
      ⟨beforeCreate env ++ createCall w env :: Call.SetQuitOnClose true ::
          (messageLoop env.GetMessage).1,
        none⟩ := by
  simp [wWinMain, beforeCreate, createCall, h, hq]

/-- The loop on results that are all nonzero followed by a zero result: every
result before the zero one is pumped, the zero one is only retrieved, and the
loop is left without looking at what follows. -/
theorem messageLoop_quit (pre : List (Int × MSG)) (m : MSG) (rest : List (Int × MSG))
    (hpre : ∀ x ∈ pre, x.1 ≠ 0) :
    messageLoop (pre ++ (0, m) :: rest) = (pre.flatMap pump ++ [Call.GetMessage 0 m], true) := by
  induction pre with
  | nil => simp [messageLoop]
  | cons x xs ih =>
    obtain ⟨r, msg⟩ := x
    have hr : r ≠ 0 := hpre (r, msg) (List.mem_cons_self _ _)
    have hxs : ∀ y ∈ xs, y.1 ≠ 0 := fun y hy => hpre y (List.mem_cons_of_mem _ hy)
    simp [messageLoop, hr, ih hxs, pump]

/-- The loop on results that are all nonzero: every one is pumped and the loop is
not left. -/
theorem messageLoop_waiting (ms : List (Int × MSG)) (hms : ∀ x ∈ ms, x.1 ≠ 0) :
    messageLoop ms = (ms.flatMap pump, false) := by
  induction ms with
  | nil => simp [messageLoop]
  | cons x xs ih =>
    obtain ⟨r, msg⟩ := x
    have hr : r ≠ 0 := hms (r, msg) (List.mem_cons_self _ _)
    have hxs : ∀ y ∈ xs, y.1 ≠ 0 := fun y hy => hms y (List.mem_cons_of_mem _ hy)
    simp [messageLoop, hr, ih hxs, pump]

/-- The loop makes no call other than `::GetMessage`, `::TranslateMessage` and
`::DispatchMessage`. -/
theorem messageLoop_calls (ms : List (Int × MSG)) :
    ∀ c ∈ (messageLoop ms).1, isLoopCall c = true := by
  induction ms with
  | nil => simp [messageLoop]
  | cons x xs ih =>
    obtain ⟨r, msg⟩ := x
    by_cases hr : r = 0
    · simp [messageLoop, hr, isLoopCall]
    · simpa [messageLoop, hr, isLoopCall] using ih

theorem pump_calls (ms : List (Int × MSG)) : ∀ c ∈ ms.flatMap pump, isLoopCall c = true := by
  intro c hc
  obtain ⟨x, -, hx⟩ := List.mem_flatMap.mp hc
  simp only [pump, List.mem_cons, List.mem_singleton, List.not_mem_nil, or_false] at hx
  rcases hx with h | h | h <;> simp [h, isLoopCall]

/-- No call before `window.Create` is a message-loop call, a `Create`, a
`SetQuitOnClose` or a `CoUninitialize`. -/
theorem beforeCreate_calls (env : Env) :
    ∀ c ∈ beforeCreate env, isLoopCall c = false ∧ isCreate c = false
      ∧ isSetQuitOnClose c = false ∧ c ≠ Call.CoUninitialize := by
  intro c hc
  simp only [beforeCreate, attachConsole, List.mem_append, List.mem_cons] at hc
  rcases hc with (h | h) | h
  · simp [h, isLoopCall, isCreate, isSetQuitOnClose]
  · split_ifs at h <;>
      simp only [List.mem_cons, List.mem_singleton, List.not_mem_nil, or_false] at h
    · rcases h with h | h <;> simp [h, isLoopCall, isCreate, isSetQuitOnClose]
    · simp [h, isLoopCall, isCreate, isSetQuitOnClose]
  · simp only [List.not_mem_nil, or_false] at h
    rcases h with h | h | h | h | h | h <;> simp [h, isLoopCall, isCreate, isSetQuitOnClose]

theorem wWinMain_calls (w : WinNls) (env : Env) :
    (wWinMain w env).calls =
      beforeCreate env ++ createCall w env :: afterCreate env.Create env.GetMessage := by
  cases hc : env.Create
  · simp [wWinMain_create_failed w env hc, afterCreate]
  · cases hq : (messageLoop env.GetMessage).2
    · simp [wWinMain_loop_waiting w env hc hq, afterCreate, hq]
    · simp [wWinMain_loop_left w env hc hq, afterCreate, hq]

theorem wWinMain_ret (w : WinNls) (env : Env) :
    (wWinMain w env).ret =
      if env.Create then
        (if (messageLoop env.GetMessage).2 then some EXIT_SUCCESS else none)
      else some EXIT_FAILURE := by
  cases hc : env.Create
  · simp [wWinMain_create_failed w env hc]
  · cases hq : (messageLoop env.GetMessage).2
    · simp [wWinMain_loop_waiting w env hc hq]
    · simp [wWinMain_loop_left w env hc hq]

/-- A kind of call that is not a message-loop call does not occur in the loop. -/
theorem messageLoop_filter (p : Call → Bool) (hp : ∀ c, isLoopCall c = true → p c = false)
    (ms : List (Int × MSG)) : (messageLoop ms).1.filter p = [] := by
  rw [List.filter_eq_nil_iff]
  intro c hc
  simp [hp c (messageLoop_calls ms c hc)]

theorem attachConsole_filter (p : Call → Bool) (env : Env)
    (h1 : ∀ r, p (Call.AttachConsole r) = false) (h2 : ∀ r, p (Call.IsDebuggerPresent r) = false)
    (h3 : p Call.CreateAndAttachConsole = false) : (attachConsole env).filter p = [] := by
  unfold attachConsole
  split_ifs <;> simp [h1, h2, h3]

/-! ## The entry point -/

/-- C3: when `window.Create` returns false, `wWinMain` returns `EXIT_FAILURE` and
makes no `GetMessage`, `TranslateMessage`, `DispatchMessage` or `SetQuitOnClose`
call; it returns `EXIT_FAILURE` only when `window.Create` returned false; and in
every other run that returns, it returns `EXIT_SUCCESS`. -/
theorem wWinMain_exit_code (w : WinNls) (env : Env) :
    (env.Create = false →
      (wWinMain w env).ret = some EXIT_FAILURE ∧
      ∀ c ∈ (wWinMain w env).calls, isLoopCall c = false ∧ isSetQuitOnClose c = false) ∧
    ((wWinMain w env).ret = some EXIT_FAILURE → env.Create = false) ∧
    (env.Create ≠ false →
      ∀ code, (wWinMain w env).ret = some code → code = EXIT_SUCCESS) := by
  refine ⟨fun hc => ⟨?_, ?_⟩, fun hr => ?_, fun hc code hr => ?_⟩
  · simp [wWinMain_ret, hc]
  · intro c hmem
    rw [wWinMain_calls, hc] at hmem
    simp only [afterCreate, Bool.false_eq_true, if_false, List.mem_append, List.mem_cons,
      List.not_mem_nil, or_false] at hmem
    rcases hmem with h | h
    · exact ⟨(beforeCreate_calls env c h).1, (beforeCreate_calls env c h).2.2.1⟩
    · simp [h, createCall, isLoopCall, isSetQuitOnClose]
  · rw [wWinMain_ret] at hr
    cases hc : env.Create
    · rfl
    · rw [hc] at hr
      simp only [if_true] at hr
      split_ifs at hr
      · simp [EXIT_SUCCESS, EXIT_FAILURE] at hr
  · rw [wWinMain_ret] at hr
    have hc' : env.Create = true := by simpa using hc
    rw [hc'] at hr
    simp only [if_true] at hr
    split_ifs at hr
    · simpa using hr.symm

/-- A run with window creation failing returns `EXIT_FAILURE` without any loop or
`SetQuitOnClose` call; the same run with the window created and a quit result
delivered returns `EXIT_SUCCESS`. -/
theorem wWinMain_exit_code_witness :
    (envFail.Create = false ∧
      (wWinMain winnt envFail).ret = some EXIT_FAILURE ∧
      ∀ c ∈ (wWinMain winnt envFail).calls, isLoopCall c = false ∧ isSetQuitOnClose c = false) ∧
    (envClose.Create ≠ false ∧ (wWinMain winnt envClose).ret = some EXIT_SUCCESS) :=
  ⟨⟨rfl, (wWinMain_exit_code winnt envFail).1 rfl⟩,
   ⟨by decide, by
      have h := (wWinMain_exit_code winnt envClose).2.2 (by decide)
      cases hr : (wWinMain winnt envClose).ret with
      | none => exact absurd hr (by decide)
      | some code => rw [h code hr]⟩⟩

/-- C4: the sequence `wWinMain` passes to `project.set_dart_entrypoint_arguments`
is the sequence `GetCommandLineArguments` returned, unchanged; it is passed once,
right after it was obtained and right before the window is constructed from the
project, and no window is constructed earlier. -/
theorem arguments_forwarded (w : WinNls) (env : Env) :
    (wWinMain w env).calls.filter isSetArguments =
      [Call.set_dart_entrypoint_arguments env.GetCommandLineArguments] ∧
    ∃ pre post,
      (wWinMain w env).calls =
        pre ++ Call.GetCommandLineArguments env.GetCommandLineArguments ::
          Call.set_dart_entrypoint_arguments env.GetCommandLineArguments ::
          Call.FlutterWindow :: post ∧
      Call.FlutterWindow ∉ pre := by
  constructor
  · rw [wWinMain_calls]
    have hloop := messageLoop_filter isSetArguments
      (fun c hc => by cases c <;> simp_all [isLoopCall, isSetArguments]) env.GetMessage
    have hcon := attachConsole_filter isSetArguments env (fun _ => rfl) (fun _ => rfl) rfl
    simp only [beforeCreate, List.filter_append, hcon, List.nil_append]
    unfold afterCreate
    split_ifs <;>
      simp [List.filter_cons, List.filter_append, hloop, isSetArguments, createCall]
  · refine ⟨attachConsole env ++ [Call.CoInitializeEx, Call.DartProject (L "data")],
      Call.GetUserDefaultUILanguage env.GetUserDefaultUILanguage ::
        createCall w env :: afterCreate env.Create env.GetMessage, ?_, ?_⟩
    · rw [wWinMain_calls]
      simp [beforeCreate]
    · unfold attachConsole
      split_ifs <;> simp

/-- C5: `AttachConsole` is called exactly once; `CreateAndAttachConsole` is called
(once) exactly when that call failed and `IsDebuggerPresent` reports a debugger,
and not at all otherwise; whatever the two results are, the return value is the
same and the run goes on after the console block with the same calls. -/
theorem console_attachment (w : WinNls) (env : Env) :
    (wWinMain w env).calls.filter isAttachConsole =
      [Call.AttachConsole env.AttachConsole] ∧
    (wWinMain w env).calls.count Call.CreateAndAttachConsole =
      (if env.AttachConsole = 0 ∧ env.IsDebuggerPresent ≠ 0 then 1 else 0) ∧
    (∀ a d, (wWinMain w { env with AttachConsole := a, IsDebuggerPresent := d }).ret =
      (wWinMain w env).ret) ∧
    ∃ rest, ∀ a d,
      (wWinMain w { env with AttachConsole := a, IsDebuggerPresent := d }).calls =
        attachConsole { env with AttachConsole := a, IsDebuggerPresent := d } ++
          Call.CoInitializeEx :: rest := by
  refine ⟨?_, ?_, fun a d => ?_, ?_⟩
  · rw [wWinMain_calls]
    have hloop := messageLoop_filter isAttachConsole
      (fun c hc => by cases c <;> simp_all [isLoopCall, isAttachConsole]) env.GetMessage
    simp only [beforeCreate, attachConsole, afterCreate]
    split_ifs <;>
      simp [List.filter_cons, List.filter_append, hloop, isAttachConsole, createCall]
  · rw [wWinMain_calls]
    have hloop : (messageLoop env.GetMessage).1.count Call.CreateAndAttachConsole = 0 := by
      rw [List.count_eq_zero]
      intro hmem
      simpa [isLoopCall] using messageLoop_calls env.GetMessage _ hmem
    simp only [beforeCreate, attachConsole, afterCreate]
    split_ifs <;> simp_all [List.count_cons, List.count_append, createCall]
  · simp [wWinMain_ret]
  · refine ⟨[Call.DartProject (L "data"),
        Call.GetCommandLineArguments env.GetCommandLineArguments,
        Call.set_dart_entrypoint_arguments env.GetCommandLineArguments,
        Call.FlutterWindow,
        Call.GetUserDefaultUILanguage env.GetUserDefaultUILanguage,
        createCall w env] ++ afterCreate env.Create env.GetMessage, fun a d => ?_⟩
    rw [wWinMain_calls]
    simp [beforeCreate, createCall]

/-- C6: two runs that agree on the language identifier, the command-line
arguments, the result of `window.Create` and the message stream, and differ at
most in the results of `AttachConsole` and `IsDebuggerPresent`, make the same
`window.Create` call with the same arguments, the same sequence of message-loop
calls, and return the same value. -/
theorem console_noninterference (w : WinNls) (e₁ e₂ : Env)
    (hlang : e₁.GetUserDefaultUILanguage = e₂.GetUserDefaultUILanguage)
    (hargs : e₁.GetCommandLineArguments = e₂.GetCommandLineArguments)
    (hcreate : e₁.Create = e₂.Create)
    (hmsgs : e₁.GetMessage = e₂.GetMessage) :
    (wWinMain w e₁).calls.filter isCreate = (wWinMain w e₂).calls.filter isCreate ∧
    (wWinMain w e₁).calls.filter isLoopCall = (wWinMain w e₂).calls.filter isLoopCall ∧
    (wWinMain w e₁).ret = (wWinMain w e₂).ret := by
  have hc1 := attachConsole_filter isCreate e₁ (fun _ => rfl) (fun _ => rfl) rfl
  have hc2 := attachConsole_filter isCreate e₂ (fun _ => rfl) (fun _ => rfl) rfl
  have hl1 := attachConsole_filter isLoopCall e₁ (fun _ => rfl) (fun _ => rfl) rfl
  have hl2 := attachConsole_filter isLoopCall e₂ (fun _ => rfl) (fun _ => rfl) rfl
  refine ⟨?_, ?_, ?_⟩
  · simp only [wWinMain_calls, beforeCreate, createCall, List.filter_append, hc1, hc2,
      hlang, hargs, hcreate, hmsgs]
  · simp only [wWinMain_calls, beforeCreate, createCall, List.filter_append, hl1, hl2,
      hlang, hargs, hcreate, hmsgs]
  · simp only [wWinMain_ret, hcreate, hmsgs]

/-- The run `envClose` and the same run with a parent console present (so that no
debugger is asked for and no console is created) agree on the `window.Create`
call, the message-loop calls and the return value. -/
theorem console_noninterference_witness :
    (wWinMain winnt envClose).calls.filter isCreate =
      (wWinMain winnt { envClose with AttachConsole := 1, IsDebuggerPresent := 0 }).calls.filter
        isCreate ∧
    (wWinMain winnt envClose).calls.filter isLoopCall =
      (wWinMain winnt { envClose with AttachConsole := 1, IsDebuggerPresent := 0 }).calls.filter
        isLoopCall ∧
    (wWinMain winnt envClose).ret =
      (wWinMain winnt { envClose with AttachConsole := 1, IsDebuggerPresent := 0 }).ret :=
  console_noninterference winnt envClose
    { envClose with AttachConsole := 1, IsDebuggerPresent := 0 } rfl rfl rfl rfl

/-- C7, at a run whose window creation fails: `wWinMain` returns `EXIT_FAILURE`
having called `CoInitializeEx` once and `CoUninitialize` not at all; the last
call of the run is `window.Create`. The same run with the window created and the
quit result delivered calls both once, `CoUninitialize` last. -/
theorem CoUninitialize_missing_on_create_failure :
    (wWinMain winnt envFail).ret = some EXIT_FAILURE ∧
    (wWinMain winnt envFail).calls.count Call.CoInitializeEx = 1 ∧
    (wWinMain winnt envFail).calls.count Call.CoUninitialize = 0 ∧
    (wWinMain winnt envFail).calls.getLast? =
      some (Call.Create [0x5927, 0x8C9D, 0x6BBC] ⟨10, 10⟩ ⟨1280, 720⟩ false) ∧
    (wWinMain winnt envClose).ret = some EXIT_SUCCESS ∧
    (wWinMain winnt envClose).calls.count Call.CoInitializeEx = 1 ∧
    (wWinMain winnt envClose).calls.count Call.CoUninitialize = 1 ∧
    (wWinMain winnt envClose).calls.getLast? = some Call.CoUninitialize := by
  decide

/-- C8: when the window is created and the message stream is `n` ordinary
messages (nonzero results) followed by the quit result, `n` possibly zero, the
loop ends after retrieving the quit result, `CoUninitialize` is called exactly
once, after the loop and as the last call, and `wWinMain` returns
`EXIT_SUCCESS`. -/
theorem close_reaches_teardown (w : WinNls) (env : Env) (pre : List (Int × MSG)) (m : MSG)
    (rest : List (Int × MSG)) (hcreate : env.Create = true)
    (hpre : ∀ x ∈ pre, x.1 ≠ 0) (hmsgs : env.GetMessage = pre ++ (0, m) :: rest) :
    (wWinMain w env).ret = some EXIT_SUCCESS ∧
    (wWinMain w env).calls.count Call.CoUninitialize = 1 ∧
    ∃ head,
      (wWinMain w env).calls =
        head ++ pre.flatMap pump ++ [Call.GetMessage 0 m, Call.CoUninitialize] ∧
      ∀ c ∈ head, isLoopCall c = false ∧ c ≠ Call.CoUninitialize := by
  have hloop := messageLoop_quit pre m rest hpre
  have hq : (messageLoop env.GetMessage).2 = true := by rw [hmsgs, hloop]
  have hcalls : (wWinMain w env).calls =
      beforeCreate env ++ [createCall w env, Call.SetQuitOnClose true] ++ pre.flatMap pump ++
        [Call.GetMessage 0 m, Call.CoUninitialize] := by
    rw [wWinMain_loop_left w env hcreate hq, hmsgs, hloop]
    simp
  have hhead : ∀ c ∈ beforeCreate env ++ [createCall w env, Call.SetQuitOnClose true],
      isLoopCall c = false ∧ c ≠ Call.CoUninitialize := by
    intro c hc
    simp only [List.mem_append, List.mem_cons, List.not_mem_nil, or_false] at hc
    rcases hc with h | h | h
    · exact ⟨(beforeCreate_calls env c h).1, (beforeCreate_calls env c h).2.2.2⟩
    · simp [h, createCall, isLoopCall]
    · simp [h, isLoopCall]
  refine ⟨?_, ?_, _, hcalls, hhead⟩
  · rw [wWinMain_loop_left w env hcreate hq]
  · have h1 : (beforeCreate env ++ [createCall w env, Call.SetQuitOnClose true]).count
        Call.CoUninitialize = 0 := by
      rw [List.count_eq_zero]
      intro hmem
      exact (hhead _ hmem).2 rfl
    have h2 : (pre.flatMap pump).count Call.CoUninitialize = 0 := by
      rw [List.count_eq_zero]
      intro hmem
      simpa [isLoopCall] using pump_calls pre _ hmem
    rw [hcalls, List.count_append, List.count_append, h1, h2]
    simp [List.count_cons]

/-- The window of `envClose` is created and its stream is two ordinary messages
(one of them retrieved with the error result -1) followed by the quit result. -/
theorem close_reaches_teardown_witness :
    (wWinMain winnt envClose).ret = some EXIT_SUCCESS ∧
    (wWinMain winnt envClose).calls.count Call.CoUninitialize = 1 ∧
    ∃ head,
      (wWinMain winnt envClose).calls =
        head ++ [((1 : Int), (15 : MSG)), (-1, 15)].flatMap pump ++
          [Call.GetMessage 0 18, Call.CoUninitialize] ∧
      ∀ c ∈ head, isLoopCall c = false ∧ c ≠ Call.CoUninitialize :=
  close_reaches_teardown winnt envClose [(1, 15), (-1, 15)] 18 [] rfl (by decide) rfl

/-- C9: in a run whose window is created, the message-loop calls are: for each
`GetMessage` result before the first zero one, in retrieval order, the retrieval
followed by `TranslateMessage` and `DispatchMessage` of that message, once each;
then the retrieval of the zero result, with which the loop is left and after
which nothing is retrieved, translated or dispatched. When no result is zero
(results of -1 included) every result is pumped and the loop is not left. -/
theorem message_loop_exits_on_quit (w : WinNls) (env : Env) (hcreate : env.Create = true) :
    (∀ pre m rest, (∀ x ∈ pre, x.1 ≠ 0) → env.GetMessage = pre ++ (0, m) :: rest →
      (wWinMain w env).calls.filter isLoopCall = pre.flatMap pump ++ [Call.GetMessage 0 m] ∧
      (wWinMain w env).ret = some EXIT_SUCCESS) ∧
    ((∀ x ∈ env.GetMessage, x.1 ≠ 0) →
      (wWinMain w env).calls.filter isLoopCall = env.GetMessage.flatMap pump ∧
      (wWinMain w env).ret = none) := by
  have hbefore : (beforeCreate env).filter isLoopCall = [] := by
    rw [List.filter_eq_nil_iff]
    intro c hc
    simp [(beforeCreate_calls env c hc).1]
  have hpump : ∀ ms : List (Int × MSG), (ms.flatMap pump).filter isLoopCall = ms.flatMap pump :=
    fun ms => List.filter_eq_self.mpr (pump_calls ms)
  refine ⟨fun pre m rest hpre hmsgs => ?_, fun hall => ?_⟩
  · have hloop := messageLoop_quit pre m rest hpre
    have hq : (messageLoop env.GetMessage).2 = true := by rw [hmsgs, hloop]
    rw [wWinMain_loop_left w env hcreate hq, hmsgs, hloop]
    simp [List.filter_append, List.filter_cons, hbefore, hpump, createCall, isLoopCall]
  · have hloop := messageLoop_waiting env.GetMessage hall
    have hq : (messageLoop env.GetMessage).2 = false := by rw [hloop]
    rw [wWinMain_loop_waiting w env hcreate hq, hloop]
    simp [List.filter_append, List.filter_cons, hbefore, hpump, createCall, isLoopCall]

/-- In `envClose` the results are 1, -1, 0: the first two are pumped (the error
result -1 does not end the loop), the third ends it. With the zero result
removed from the stream the run has pumped both and has not returned. -/
theorem message_loop_exits_on_quit_witness :
    ((wWinMain winnt envClose).calls.filter isLoopCall =
        [Call.GetMessage 1 15, Call.TranslateMessage 15, Call.DispatchMessage 15,
         Call.GetMessage (-1) 15, Call.TranslateMessage 15, Call.DispatchMessage 15,
         Call.GetMessage 0 18] ∧
      (wWinMain winnt envClose).ret = some EXIT_SUCCESS) ∧
    ((wWinMain winnt { envClose with GetMessage := [(1, 15), (-1, 15)] }).calls.filter
        isLoopCall =
        [Call.GetMessage 1 15, Call.TranslateMessage 15, Call.DispatchMessage 15,
         Call.GetMessage (-1) 15, Call.TranslateMessage 15, Call.DispatchMessage 15] ∧
      (wWinMain winnt { envClose with GetMessage := [(1, 15), (-1, 15)] }).ret = none) :=
  ⟨(message_loop_exits_on_quit winnt envClose rfl).1 [(1, 15), (-1, 15)] 18 [] (by decide) rfl,
   (message_loop_exits_on_quit winnt { envClose with GetMessage := [(1, 15), (-1, 15)] } rfl).2
     (by decide)⟩

/-- C10: `window.Create` is called exactly once, with the title
`GetLocalizedAppTitle` gives for the current language, origin (10, 10) and size
(1280, 720), whatever the command-line arguments; no message-loop call and no
`SetQuitOnClose` call comes before it; when it succeeds, the next call is
`SetQuitOnClose(true)`, the only one of the run, and every `GetMessage` comes
after that; when it fails, nothing follows, so `SetQuitOnClose` is not called. -/
theorem window_created_once (w : WinNls) (env : Env) :
    (wWinMain w env).calls.filter isCreate =
      [Call.Create (GetLocalizedAppTitle w env.GetUserDefaultUILanguage)
        ⟨10, 10⟩ ⟨1280, 720⟩ env.Create] ∧
    (∀ args, (wWinMain w { env with GetCommandLineArguments := args }).calls.filter isCreate =
      (wWinMain w env).calls.filter isCreate) ∧
    ∃ pre post,
      (wWinMain w env).calls =
        pre ++ Call.Create (GetLocalizedAppTitle w env.GetUserDefaultUILanguage)
          ⟨10, 10⟩ ⟨1280, 720⟩ env.Create :: post ∧
      (∀ c ∈ pre, isLoopCall c = false ∧ isSetQuitOnClose c = false) ∧
      (env.Create = true →
        ∃ loop, post = Call.SetQuitOnClose true :: loop ∧
          ∀ c ∈ loop, isSetQuitOnClose c = false) ∧
      (env.Create = false → post = []) := by
  have hfilter : ∀ e : Env, (wWinMain w e).calls.filter isCreate = [createCall w e] := by
    intro e
    rw [wWinMain_calls]
    have hloop := messageLoop_filter isCreate
      (fun c hc => by cases c <;> simp_all [isLoopCall, isCreate]) e.GetMessage
    have hcon := attachConsole_filter isCreate e (fun _ => rfl) (fun _ => rfl) rfl
    simp only [beforeCreate, List.filter_append, hcon, List.nil_append]
    unfold afterCreate
    split_ifs <;> simp [List.filter_cons, List.filter_append, hloop, isCreate, createCall]
  refine ⟨hfilter env, fun args => ?_, beforeCreate env, afterCreate env.Create env.GetMessage,
    wWinMain_calls w env, fun c hc => ?_, fun hc => ?_, fun hc => ?_⟩
  · rw [hfilter, hfilter]
    rfl
  · exact ⟨(beforeCreate_calls env c hc).1, (beforeCreate_calls env c hc).2.2.1⟩
  · refine ⟨_, by simp only [afterCreate, hc, if_true]; rfl, fun c hmem => ?_⟩
    simp only [List.mem_append] at hmem
    rcases hmem with h | h
    · have := messageLoop_calls env.GetMessage c h
      cases c <;> simp_all [isLoopCall, isSetQuitOnClose]
    · split_ifs at h
      · simp only [List.mem_singleton] at h
        simp [h, isSetQuitOnClose]
      · simp at h
  · simp [afterCreate, hc]

/-- In `envClose` (language zh-TW, window created) the one `Create` call carries
the Traditional title, (10, 10) and (1280, 720), and is directly followed by the
one `SetQuitOnClose(true)`; in `envFail` (window not created) the `Create` call is
the last call of the run. -/
theorem window_created_once_witness :
    (wWinMain winnt envClose).calls.filter isCreate =
      [Call.Create [0x5927, 0x8C9D, 0x6BBC] ⟨10, 10⟩ ⟨1280, 720⟩ true] ∧
    (∃ pre loop,
      (wWinMain winnt envClose).calls =
        pre ++ Call.Create [0x5927, 0x8C9D, 0x6BBC] ⟨10, 10⟩ ⟨1280, 720⟩ true ::
          Call.SetQuitOnClose true :: loop ∧
      (∀ c ∈ pre, isLoopCall c = false ∧ isSetQuitOnClose c = false) ∧
      ∀ c ∈ loop, isSetQuitOnClose c = false) ∧
    ∃ pre,
      (wWinMain winnt envFail).calls =
        pre ++ [Call.Create [0x5927, 0x8C9D, 0x6BBC] ⟨10, 10⟩ ⟨1280, 720⟩ false] ∧
      ∀ c ∈ pre, isLoopCall c = false ∧ isSetQuitOnClose c = false := by
  refine ⟨(window_created_once winnt envClose).1, ?_, ?_⟩
  · obtain ⟨pre, post, hcalls, hpre, hcreated, -⟩ := (window_created_once winnt envClose).2.2
    obtain ⟨loop, hpost, hloop⟩ := hcreated rfl
    exact ⟨pre, loop, by rw [hcalls, hpost]; rfl, hpre, hloop⟩
  · obtain ⟨pre, post, hcalls, hpre, -, hfailed⟩ := (window_created_once winnt envFail).2.2
    exact ⟨pre, by rw [hcalls, hfailed rfl]; rfl, hpre⟩

end Beike
